import Mathlib

/-!
Verification development for the Kontoudskrift statement parser
(src/KontoudskriftParser.py). The Python source is shallowly embedded below:
pure helpers become Lean functions, the page-level fragment loop becomes an
explicit fold over a state record, and every `raise` in the source becomes an
`Except.error` with a constructor named after the raised condition. Strings
are processed as lists of characters (`String.data`); `datetime` values are
modelled as year/month/day triples compared through their rata-die day number,
which coincides with chronological comparison on the valid dates the parser
constructs; `decimal.Decimal` values are modelled exactly as a signed
coefficient together with a decimal exponent.
-/

/-- Value of a list of ASCII digit characters, most significant first
(models Python `int(...)` on a digit string and `strptime` field reads). -/
def digitsVal (ds : List Char) : Nat :=
  ds.foldl (fun a c => a * 10 + (c.toNat - 48)) 0

/-- Substring test: models the Python expression `pat in s`
(used for the `"font-size:9pt" not in span_style` filter). -/
def containsSub (pat : List Char) : List Char → Bool
  | [] => List.isPrefixOf pat []
  | c :: rest => List.isPrefixOf pat (c :: rest) || containsSub pat rest

/-- Fuel-driven worker for `splitOnL`; the fuel is an upper bound on the number
of characters still to scan, so it never runs out when called from `splitOnL`. -/
def splitOnAux (sep : List Char) : Nat → List Char → List Char → List (List Char)
  | _, [], acc => [acc.reverse]
  | 0, cs, acc => [acc.reverse ++ cs]
  | fuel + 1, c :: rest, acc =>
    if List.isPrefixOf sep (c :: rest) then
      acc.reverse :: splitOnAux sep fuel (List.drop sep.length (c :: rest)) []
    else
      splitOnAux sep fuel rest (c :: acc)

/-- Models Python `str.split(sep)` for a non-empty separator: split on every
non-overlapping occurrence of `sep`, scanning left to right. -/
def splitOnL (sep cs : List Char) : List (List Char) :=
  if sep.isEmpty then [cs] else splitOnAux sep (cs.length + 1) cs []

/-- Fuel-driven decimal digit expansion of a natural number. -/
def natDigitsAux : Nat → Nat → List Char
  | 0, _ => []
  | fuel + 1, n =>
    if n < 10 then [Char.ofNat (48 + n)]
    else natDigitsAux fuel (n / 10) ++ [Char.ofNat (48 + n % 10)]

/-- Decimal digit characters of a natural number. -/
def natChars (n : Nat) : List Char := natDigitsAux (n + 1) n

/-- Zero-pad the decimal form of `n` to width `w` (models `strftime` padding). -/
def padZero (w n : Nat) : List Char :=
  List.replicate (w - (natChars n).length) '0' ++ natChars n

/-- Attempt to match the regex fragment `left:(\d+)pt` at the head of `cs`
(greedy digit run, exactly as the backtracking regex behaves: shortening the
digit run can never help because the following character would still be a
digit rather than the letter p). Returns the integer group on success. -/
def leftPtAt (cs : List Char) : Option Nat :=
  if List.isPrefixOf (("left:").data) cs then
    if ((cs.drop 5).takeWhile Char.isDigit).isEmpty then none
    else if List.isPrefixOf (("pt").data)
        ((cs.drop 5).drop ((cs.drop 5).takeWhile Char.isDigit).length) then
      some (digitsVal ((cs.drop 5).takeWhile Char.isDigit))
    else none
  else none

/-- Models `re.match(r"^.*left:(\d+)pt", par_style)`: the greedy `.*`
backtracks from the end, so the match that wins is the rightmost position at
which `left:(\d+)pt` matches; `none` when there is no such position. -/
def findLeftPt : List Char → Option Nat
  | [] => none
  | c :: rest =>
    match findLeftPt rest with
    | some v => some v
    | none => leftPtAt (c :: rest)

/-- Calendar date, modelling the date part of a Python `datetime`
(the parser only ever constructs midnight timestamps). -/
structure Date where
  year : Nat
  month : Nat
  day : Nat
deriving DecidableEq

/-- Gregorian leap-year test, as used by `datetime`. -/
def isLeap (y : Nat) : Bool :=
  (y % 4 == 0 && y % 100 != 0) || y % 400 == 0

/-- Number of days in month `m` of year `y`. -/
def daysInMonth (m y : Nat) : Nat :=
  if m == 2 then (if isLeap y then 29 else 28)
  else if m == 4 || m == 6 || m == 9 || m == 11 then 30
  else 31

/-- Calendar validity of a day/month/year triple, matching what
`datetime.strptime` accepts for the `%d`/`%m` fields plus the `MINYEAR`
constraint (day 0, month 0, month 13, day 31.04, 29.02 of a non-leap year
are all rejected, exactly the cases where `strptime` raises `ValueError`). -/
def dateValid (d m y : Nat) : Bool :=
  decide (1 ≤ y) && decide (1 ≤ m) && decide (m ≤ 12) && decide (1 ≤ d)
    && decide (d ≤ daysInMonth m y)

/-- Validity of a candidate year used in the date-resolution loops, where the
source formats the year with `f"{year}"` and re-parses it with `%Y`: `%Y`
demands exactly four digits, so the year must also lie in 1000..9999. -/
def candDateValid (d m y : Nat) : Bool :=
  decide (1000 ≤ y) && decide (y ≤ 9999) && dateValid d m y

/-- Cumulative days before month `m` in a non-leap year. -/
def cumMonthDays : Nat → Nat
  | 1 => 0 | 2 => 31 | 3 => 59 | 4 => 90 | 5 => 120 | 6 => 151 | 7 => 181
  | 8 => 212 | 9 => 243 | 10 => 273 | 11 => 304 | 12 => 334 | _ => 365

/-- Rata-die day number of a date. On valid dates this is strictly monotone
in chronological order, so `datetime` comparison and `datetime` subtraction
(in whole days, all times being midnight) are modelled by comparison and
subtraction of `toDays` values. -/
def toDays (dt : Date) : Nat :=
  365 * (dt.year - 1) + (dt.year - 1) / 4 - (dt.year - 1) / 100
    + (dt.year - 1) / 400 + cumMonthDays dt.month
    + (if 3 ≤ dt.month then (if isLeap dt.year then 1 else 0) else 0) + dt.day

/-- Models `datetime.strptime(s, "%d.%m.%Y")`: three dot-separated fields,
day and month of one or two digits, year of exactly four digits, and the
triple must be a valid calendar date; `none` models the `ValueError`. -/
def strptime_dmY (cs : List Char) : Option Date :=
  match splitOnL ((".").data) cs with
  | [ds, ms, ys] =>
    if ds.all Char.isDigit ∧ 1 ≤ ds.length ∧ ds.length ≤ 2
        ∧ ms.all Char.isDigit ∧ 1 ≤ ms.length ∧ ms.length ≤ 2
        ∧ ys.all Char.isDigit ∧ ys.length = 4 then
      if dateValid (digitsVal ds) (digitsVal ms) (digitsVal ys) then
        some (Date.mk (digitsVal ys) (digitsVal ms) (digitsVal ds))
      else none
    else none
  | _ => none

/-- Models `strftime("%d. %m. %Y")`, used to build the terminator marker. -/
def strftime_dmY (dt : Date) : List Char :=
  padZero 2 dt.day ++ ((". ").data) ++ padZero 2 dt.month ++ ((". ").data)
    ++ padZero 4 dt.year

/-- Models `re.match(r"^\d\d\.\d\d$", text)`: exactly two digits, a period,
two digits. Returns the day and month values on success. -/
def matchDDMM (cs : List Char) : Option (Nat × Nat) :=
  match cs with
  | [a, b, c, d, e] =>
    if a.isDigit && b.isDigit && c == '.' && d.isDigit && e.isDigit then
      some (digitsVal [a, b], digitsVal [d, e])
    else none
  | _ => none

/-- Exact decimal value `num / 10 ^ exp`, modelling `decimal.Decimal`
(signed coefficient and number of fractional digits). -/
structure Decimal where
  num : Int
  exp : Nat
deriving DecidableEq

/-- Numeric equality of two modelled decimals (cross-multiplied). -/
def Decimal.eqv (a b : Decimal) : Bool :=
  a.num * (10 : Int) ^ b.exp == b.num * (10 : Int) ^ a.exp

/-- Models the `Decimal(string)` constructor on a string of digits and
periods: at most one period and at least one digit, otherwise the constructor
raises `InvalidOperation` (modelled by `none`). -/
def decimalOfChars (cs : List Char) : Option Decimal :=
  if cs.all (fun c => c.isDigit || c == '.')
      ∧ (cs.filter (fun c => c == '.')).length ≤ 1 ∧ cs.any Char.isDigit then
    some (Decimal.mk
      (Int.ofNat (digitsVal
        (cs.takeWhile (fun c => c ≠ '.') ++ cs.drop ((cs.takeWhile (fun c => c ≠ '.')).length + 1))))
      (cs.drop ((cs.takeWhile (fun c => c ≠ '.')).length + 1)).length)
  else none

/-- Every exception the embedded parser can raise, one constructor per
`raise` site (or per built-in error the source lets escape). -/
inductive PError where
  /-- `raise Exception(f"No left style in paragraph style ...")`. -/
  | missingLayoutOffset
  /-- `raise Exception(f"Timestamp ... could not be assigned within range ...")`. -/
  | dateUnassignable
  /-- `raise Exception("Incomplete record found new entry timestamp")`. -/
  | incompleteRecordOnNewEntry
  /-- `raise Exception("Page ended on incomplete record")`. -/
  | incompletePageEnd
  /-- `raise Exception(f"Unknown end character on currency ...")`. -/
  | malformedCurrency
  /-- `decimal.InvalidOperation` escaping from the `Decimal` constructor. -/
  | invalidDecimal
  /-- Uncaught `ValueError` from `strptime`. -/
  | valueError
  /-- Uncaught `IndexError` from list indexing in the period-marker parse. -/
  | indexError
  /-- Uncaught `AttributeError` from dereferencing `None`. -/
  | attributeError
deriving DecidableEq

/-- The central record type, mirroring the Python class field for field. -/
structure BankItemLine where
  entry_time : Option Date
  value_time : Option Date
  description : List String
  credited : Option Decimal
  balance : Option Decimal
deriving DecidableEq

/-- Line-for-line translation of `BankItemLine.is_complete`. -/
def BankItemLine.is_complete (l : BankItemLine) : Bool :=
  l.entry_time.isSome && l.value_time.isSome && l.credited.isSome
    && l.balance.isSome && !l.description.isEmpty

/-- A fresh `BankItemLine()` whose `entry_time` was just assigned. -/
def newRecord (stamp : Date) : BankItemLine :=
  BankItemLine.mk (some stamp) none [] none none

/-- Translation of `bank_currency_format_to_decimal`: keep only digits and
periods, run the `Decimal` constructor, then inspect the trailing character
of the original text (in this order, as in the source). -/
def bank_currency_format_to_decimal (t : String) : Except PError Decimal :=
  match decimalOfChars (t.data.filter (fun c => c.isDigit || c == '.')) with
  | none => Except.error PError.invalidDecimal
  | some d =>
    if t.data.getLast? == some '+' then Except.ok d
    else if t.data.getLast? == some '-' then Except.ok (Decimal.mk (-d.num) d.exp)
    else Except.error PError.malformedCurrency

/-- The local variables of the `parse_page` loop. -/
structure PState where
  items : List BankItemLine
  record : Option BankItemLine
  is_recording : Bool
  time_range_start : Option Date
  time_range_end : Option Date
deriving DecidableEq

/-- Loop state at the top of `parse_page`. -/
def initState : PState :=
  PState.mk [] none false none none

/-- One positioned text fragment (a `<p>` element): the span text, the span
style when a span with a style attribute exists, and the paragraph style when
the attribute exists. A missing span or a missing style attribute makes the
source's bare `except` skip the fragment. -/
structure Frag where
  text : String
  span_style : Option String
  par_style : Option String
deriving DecidableEq

/-- The try-block filter: a fragment survives when it has a span, the span
has a style containing `font-size:9pt`, and the paragraph has a style. -/
def isBodyFrag (f : Frag) : Bool :=
  match f.span_style, f.par_style with
  | some ss, some _ => containsSub (("font-size:9pt").data) ss.data
  | _, _ => false

/-- Entry-date strategy (the `if is_entry` loop over
`[time_range_start.year, time_range_end.year]`): an invalid candidate date
triggers the `except ValueError: break`, abandoning the whole loop; a valid
candidate is accepted when it lies in `[start, end]`, otherwise the next
year is tried. -/
def entryResolve (d m : Nat) (trs tre : Date) : Option Date :=
  if candDateValid d m trs.year then
    if toDays trs ≤ toDays (Date.mk trs.year m d)
        ∧ toDays (Date.mk trs.year m d) ≤ toDays tre then
      some (Date.mk trs.year m d)
    else if candDateValid d m tre.year then
      if toDays trs ≤ toDays (Date.mk tre.year m d)
          ∧ toDays (Date.mk tre.year m d) ≤ toDays tre then
        some (Date.mk tre.year m d)
      else none
    else none
  else none

/-- Value-date strategy (the `else` loop over
`[record.entry_time.year, record.entry_time.year + 1]`): here `strptime` is
not guarded, so an invalid candidate date is an uncaught `ValueError`; a
valid candidate is accepted when `timestamp - entry_time < timedelta(days=7)`
— a signed comparison, equivalent to `toDays candidate < toDays entry + 7`. -/
def valueResolve (d m : Nat) (entry : Date) : Except PError (Option Date) :=
  if candDateValid d m entry.year then
    if toDays (Date.mk entry.year m d) < toDays entry + 7 then
      Except.ok (some (Date.mk entry.year m d))
    else if candDateValid d m (entry.year + 1) then
      if toDays (Date.mk (entry.year + 1) m d) < toDays entry + 7 then
        Except.ok (some (Date.mk (entry.year + 1) m d))
      else Except.ok none
    else Except.error PError.valueError
  else Except.error PError.valueError

/-- Parse of the two period dates out of a period-marker text:
`text.split(": ")[1].split(" to ")` indexing and the two `strptime` calls,
with the source's error order (strptime of `dates[0]` runs before `dates[1]`
is indexed). -/
def parsePeriodDates (t : String) : Except PError (Date × Date) :=
  match (splitOnL ((": ").data) t.data).get? 1 with
  | none => Except.error PError.indexError
  | some rest =>
    match strptime_dmY ((splitOnL ((" to ").data) rest).headD []) with
    | none => Except.error PError.valueError
    | some trs =>
      match (splitOnL ((" to ").data) rest).get? 1 with
      | none => Except.error PError.indexError
      | some second =>
        match strptime_dmY second with
        | none => Except.error PError.valueError
        | some tre => Except.ok (trs, tre)

/-- Effect of a recognised period marker on the loop state. In the source
`time_range_start` is assigned before `time_range_end` is parsed, but a
failure aborts the whole page, so the intermediate assignment is
unobservable and the two assignments are modelled together. -/
def parsePeriod (st : PState) (t : String) : Except PError PState :=
  match parsePeriodDates t with
  | Except.error e => Except.error e
  | Except.ok (trs, tre) =>
    Except.ok { st with
      time_range_start := some trs
      time_range_end := some tre
      is_recording := true }

/-- The marker text that starts the recording section. -/
def periodMark : List Char :=
  ("Period this statement relates to").data

/-- The terminator test: `time_range_end is not None and
text.startswith(f"Balance as at {time_range_end.strftime('%d. %m. %Y')}")`. -/
def terminatorMatch (st : PState) (t : String) : Bool :=
  match st.time_range_end with
  | some tre => List.isPrefixOf ((("Balance as at ").data) ++ strftime_dmY tre) t.data
  | none => false

/-- The reassignment `time_range_end = time_range_start if time_range_end is
None else time_range_end` performed at the top of the date-band branch. -/
def stWithTre (st : PState) : PState :=
  { st with time_range_end :=
      if st.time_range_end.isNone then st.time_range_start else st.time_range_end }

/-- Body of the date-band branch after the `time_range_end` reassignment.
`left_amount` is 57 (entry band) or 98 (value band). The `| none, _` and
`| _, none` fallthroughs model the `AttributeError` Python would raise on
`time_range_start.year` / `record.entry_time.year` when the value is `None`.
The source's late guard `if record is None or record.entry_time is None:
continue` in the value branch sits after that dereference and is therefore
unreachable in the cases it tests for; it needs no counterpart here. -/
def dateBandAt (st : PState) (t : String) (left_amount : Nat) : Except PError PState :=
  match matchDDMM t.data with
  | none => Except.ok st
  | some (d, m) =>
    if left_amount == 57 then
      match st.time_range_start, st.time_range_end with
      | some trs, some tre =>
        match entryResolve d m trs tre with
        | none => Except.error PError.dateUnassignable
        | some stamp =>
          match st.record with
          | none => Except.ok { st with record := some (newRecord stamp) }
          | some r =>
            if r.is_complete then
              Except.ok { st with
                items := st.items ++ [r]
                record := some (newRecord stamp) }
            else Except.error PError.incompleteRecordOnNewEntry
      | _, _ => Except.error PError.attributeError
    else
      match st.record with
      | none => Except.error PError.attributeError
      | some r =>
        match r.entry_time with
        | none => Except.error PError.attributeError
        | some entry =>
          match valueResolve d m entry with
          | Except.error e => Except.error e
          | Except.ok none => Except.error PError.dateUnassignable
          | Except.ok (some stamp) =>
            Except.ok { st with record := some { r with value_time := some stamp } }

/-- The `left_amount in [ENTRY_DATE_LEFT_POSITION, VALUE_DATE_LEFT_POSITION]`
branch, including the `time_range_end` reassignment. -/
def dateBand (st : PState) (t : String) (left_amount : Nat) : Except PError PState :=
  dateBandAt (stWithTre st) t left_amount

/-- The balance / credited / description branches, guarded by
`if record is None or record.value_time is None: continue`. -/
def moneyBand (st : PState) (t : String) (left_amount : Nat) : Except PError PState :=
  match st.record with
  | none => Except.ok st
  | some r =>
    if r.value_time.isNone then Except.ok st
    else if 490 < left_amount then
      match bank_currency_format_to_decimal t with
      | Except.error e => Except.error e
      | Except.ok d => Except.ok { st with record := some { r with balance := some d } }
    else if 390 < left_amount then
      match bank_currency_format_to_decimal t with
      | Except.error e => Except.error e
      | Except.ok d => Except.ok { st with record := some { r with credited := some d } }
    else
      Except.ok { st with record := some { r with description := r.description ++ [t] } }

/-- One loop iteration on a fragment that survived the style filter, in the
source's order: terminator marker, period marker (only while not recording),
skip while not recording, then horizontal-band classification via the
`left:(\d+)pt` extraction. -/
def processBody (st : PState) (t ps : String) : Except PError PState :=
  if terminatorMatch st t then Except.ok { st with is_recording := false }
  else if !st.is_recording && List.isPrefixOf periodMark t.data then
    parsePeriod st t
  else if !st.is_recording then Except.ok st
  else
    match findLeftPt ps.data with
    | none => Except.error PError.missingLayoutOffset
    | some left_amount =>
      if left_amount == 57 || left_amount == 98 then dateBand st t left_amount
      else moneyBand st t left_amount

/-- One loop iteration on an arbitrary fragment: the try-block filter
followed by `processBody`. -/
def stepFrag (st : PState) (f : Frag) : Except PError PState :=
  if isBodyFrag f then
    match f.par_style with
    | some ps => processBody st f.text ps
    | none => Except.ok st
  else Except.ok st

/-- The whole fragment loop. -/
def runFrags (st : PState) : List Frag → Except PError PState
  | [] => Except.ok st
  | f :: fs =>
    match stepFrag st f with
    | Except.error e => Except.error e
    | Except.ok st2 => runFrags st2 fs

/-- Sort key used by `BankItemLine.__lt__` / `__gt__`: records compare by
`entry_time` alone, and `datetime` comparison on the valid dates the parser
builds is comparison of rata-die day numbers. Only complete records are ever
sorted, so the `none` fallback value is never consulted. -/
def sortKey (l : BankItemLine) : Nat :=
  match l.entry_time with
  | some dt => toDays dt
  | none => 0

/-- Stable insertion of a record into an already sorted list: the new record
goes after every record whose key is less than or equal to its own. A stable
sort of a list by a total key order has a unique result, so this insertion
sort computes exactly what Python's stable `sorted` returns. -/
def insertLine (x : BankItemLine) : List BankItemLine → List BankItemLine
  | [] => [x]
  | y :: ys => if sortKey x < sortKey y then x :: y :: ys else y :: insertLine x ys

/-- Models `sorted(items)`: stable sort by `sortKey`. -/
def sortStable (xs : List BankItemLine) : List BankItemLine :=
  xs.foldl (fun acc x => insertLine x acc) []

/-- End-of-stream handling of `parse_page`: the final `if record is None ...`
cascade followed by `return sorted(items)`. -/
def finishPage (st : PState) : Except PError (List BankItemLine) :=
  match st.record with
  | none => Except.ok (sortStable st.items)
  | some r =>
    if r.is_complete then Except.ok (sortStable (st.items ++ [r]))
    else if r.entry_time.isSome then Except.error PError.incompletePageEnd
    else Except.ok (sortStable st.items)

/-- Translation of `parse_page`, taking the fragment sequence the external
fragment source produces for one page. -/
def parse_page (frags : List Frag) : Except PError (List BankItemLine) :=
  match runFrags initState frags with
  | Except.error e => Except.error e
  | Except.ok st => finishPage st

/-- The `items += parse_page(page)` accumulation of `parse_doc`, before the
final sort: per-page results concatenated in document order. -/
def pagesConcat : List (List Frag) → Except PError (List BankItemLine)
  | [] => Except.ok []
  | p :: ps =>
    match parse_page p with
    | Except.error e => Except.error e
    | Except.ok out =>
      match pagesConcat ps with
      | Except.error e => Except.error e
      | Except.ok rest => Except.ok (out ++ rest)

/-- Translation of `parse_doc`: parse every page, concatenate, sort. -/
def parse_doc (pages : List (List Frag)) : Except PError (List BankItemLine) :=
  match pagesConcat pages with
  | Except.error e => Except.error e
  | Except.ok items => Except.ok (sortStable items)

instance {ε α : Type} [DecidableEq ε] [DecidableEq α] : DecidableEq (Except ε α) :=
  fun a b =>
    match a, b with
    | Except.ok x, Except.ok y =>
      match decEq x y with
      | isTrue h => isTrue (by rw [h])
      | isFalse h => isFalse (fun hh => h (Except.ok.inj hh))
    | Except.error x, Except.error y =>
      match decEq x y with
      | isTrue h => isTrue (by rw [h])
      | isFalse h => isFalse (fun hh => h (Except.error.inj hh))
    | Except.ok _, Except.error _ => isFalse (fun hh => Except.noConfusion hh)
    | Except.error _, Except.ok _ => isFalse (fun hh => Except.noConfusion hh)

/-- Convenience constructor for a body-text fragment in the scenarios. -/
def bodyFrag (t ps : String) : Frag :=
  Frag.mk t (some ("font-family:Helvetica;font-size:9pt")) (some ps)

/-- The period-marker fragment shared by the concrete scenarios. -/
def periodFrag : Frag :=
  bodyFrag ("Period this statement relates to: 01.09.2016 to 30.11.2016")
    ("top:50pt;left:40pt")

/-- Scenario 1 of the specification: one full record. -/
def scenario1 : List Frag :=
  [periodFrag,
   bodyFrag ("15.10") ("top:100pt;left:57pt"),
   bodyFrag ("16.10") ("top:100pt;left:98pt"),
   bodyFrag ("Payment") ("top:100pt;left:150pt"),
   bodyFrag ("received") ("top:100pt;left:200pt"),
   bodyFrag ("100,00+") ("top:100pt;left:400pt"),
   bodyFrag ("1.500,00+") ("top:100pt;left:500pt")]

/-- The record the source actually builds from Scenario 1. -/
def scenario1Record : BankItemLine :=
  BankItemLine.mk (some (Date.mk 2016 10 15)) (some (Date.mk 2016 10 16))
    [("Payment"), ("received")] (some (Decimal.mk 10000 0)) (some (Decimal.mk 150000 5))

/-- Fragment stream whose value-date text resolves far in the past. -/
def scenario3 : List Frag :=
  [periodFrag,
   bodyFrag ("15.10") ("top:100pt;left:57pt"),
   bodyFrag ("01.01") ("top:100pt;left:98pt"),
   bodyFrag ("Payment") ("top:100pt;left:150pt"),
   bodyFrag ("1,00+") ("top:100pt;left:400pt"),
   bodyFrag ("2,00+") ("top:100pt;left:500pt")]

/-- The record the source builds from `scenario3`. -/
def scenario3Record : BankItemLine :=
  BankItemLine.mk (some (Date.mk 2016 10 15)) (some (Date.mk 2016 1 1))
    [("Payment")] (some (Decimal.mk 100 0)) (some (Decimal.mk 200 0))

/-- Scenario 2 of the specification: the invalid date 48.00 in the entry band. -/
def c4frags : List Frag :=
  [periodFrag, bodyFrag ("48.00") ("top:100pt;left:57pt")]

/-- A value-date-band fragment arriving while no record is open. -/
def c5frags : List Frag :=
  [periodFrag, bodyFrag ("16.10") ("top:100pt;left:98pt")]

/-- A page prefix that builds one complete record and then hits the
terminator marker. -/
def c6front : List Frag :=
  [periodFrag,
   bodyFrag ("15.10") ("top:100pt;left:57pt"),
   bodyFrag ("16.10") ("top:100pt;left:98pt"),
   bodyFrag ("Alpha") ("top:100pt;left:150pt"),
   bodyFrag ("1,00+") ("top:100pt;left:400pt"),
   bodyFrag ("2,00+") ("top:100pt;left:500pt"),
   bodyFrag ("Balance as at 30. 11. 2016") ("top:200pt;left:57pt")]

/-- Well-formed fragments arriving after the terminator: a second period
marker followed by a second complete record. -/
def c6post : List Frag :=
  [periodFrag,
   bodyFrag ("20.10") ("top:300pt;left:57pt"),
   bodyFrag ("21.10") ("top:300pt;left:98pt"),
   bodyFrag ("Beta") ("top:300pt;left:150pt"),
   bodyFrag ("3,00+") ("top:300pt;left:400pt"),
   bodyFrag ("4,00+") ("top:300pt;left:500pt")]

/-- The record built from the fragments before the terminator in `c6front`. -/
def c6recA : BankItemLine :=
  BankItemLine.mk (some (Date.mk 2016 10 15)) (some (Date.mk 2016 10 16))
    [("Alpha")] (some (Decimal.mk 100 0)) (some (Decimal.mk 200 0))

/-- The record built entirely from fragments after the terminator. -/
def c6recB : BankItemLine :=
  BankItemLine.mk (some (Date.mk 2016 10 20)) (some (Date.mk 2016 10 21))
    [("Beta")] (some (Decimal.mk 300 0)) (some (Decimal.mk 400 0))

/-- First page of the two-page tie-break document. -/
def c7page1 : List Frag :=
  [periodFrag,
   bodyFrag ("15.10") ("top:100pt;left:57pt"),
   bodyFrag ("16.10") ("top:100pt;left:98pt"),
   bodyFrag ("First") ("top:100pt;left:150pt"),
   bodyFrag ("1,00+") ("top:100pt;left:400pt"),
   bodyFrag ("2,00+") ("top:100pt;left:500pt")]

/-- Second page, producing a record with the same entry date. -/
def c7page2 : List Frag :=
  [periodFrag,
   bodyFrag ("15.10") ("top:100pt;left:57pt"),
   bodyFrag ("16.10") ("top:100pt;left:98pt"),
   bodyFrag ("Second") ("top:100pt;left:150pt"),
   bodyFrag ("3,00+") ("top:100pt;left:400pt"),
   bodyFrag ("4,00+") ("top:100pt;left:500pt")]

/-- The record produced by `c7page1`. -/
def c7recX : BankItemLine :=
  BankItemLine.mk (some (Date.mk 2016 10 15)) (some (Date.mk 2016 10 16))
    [("First")] (some (Decimal.mk 100 0)) (some (Decimal.mk 200 0))

/-- The record produced by `c7page2`, sharing its entry date with `c7recX`. -/
def c7recY : BankItemLine :=
  BankItemLine.mk (some (Date.mk 2016 10 15)) (some (Date.mk 2016 10 16))
    [("Second")] (some (Decimal.mk 300 0)) (some (Decimal.mk 400 0))

/-- A page that ends with an open record holding only an entry date. -/
def c8frags : List Frag :=
  [periodFrag, bodyFrag ("15.10") ("top:100pt;left:57pt")]

/-- Loop state after `c8frags`: an open, incomplete record with an entry date. -/
def c8state : PState :=
  PState.mk [] (some (newRecord (Date.mk 2016 10 15))) true
    (some (Date.mk 2016 9 1)) (some (Date.mk 2016 11 30))

/-- A body-text fragment whose paragraph style has no `left:<integer>pt`,
arriving before any period marker. -/
def c9frag : Frag :=
  bodyFrag ("hello") ("top:10pt")

/-- Record comparison used by `sorted`: `lineLE a b` says the records are in
nondecreasing `entry_time` order. -/
def lineLE (a b : BankItemLine) : Prop := sortKey a ≤ sortKey b

instance : DecidableRel lineLE :=
  fun a b => inferInstanceAs (Decidable (sortKey a ≤ sortKey b))

theorem mem_insertLine (a x : BankItemLine) (l : List BankItemLine) :
    a ∈ insertLine x l ↔ a = x ∨ a ∈ l := by
  induction l with
  | nil => simp [insertLine]
  | cons y ys ih =>
    unfold insertLine
    split
    · exact List.mem_cons
    · rw [List.mem_cons, ih, List.mem_cons]
      tauto

theorem pairwise_insertLine (x : BankItemLine) (l : List BankItemLine)
    (h : List.Pairwise lineLE l) : List.Pairwise lineLE (insertLine x l) := by
  induction l with
  | nil => simp [insertLine]
  | cons y ys ih =>
    rw [List.pairwise_cons] at h
    unfold insertLine
    split
    · rename_i hlt
      rw [List.pairwise_cons]
      refine ⟨?_, List.pairwise_cons.mpr h⟩
      intro z hz
      rcases List.mem_cons.mp hz with rfl | hz2
      · exact Nat.le_of_lt hlt
      · exact Nat.le_trans (Nat.le_of_lt hlt) (h.1 z hz2)
    · rename_i hnlt
      rw [List.pairwise_cons]
      refine ⟨?_, ih h.2⟩
      intro z hz
      rcases (mem_insertLine z x ys).mp hz with rfl | hz2
      · exact Nat.le_of_not_lt hnlt
      · exact h.1 z hz2

theorem filter_key_nil (k : Nat) (l : List BankItemLine)
    (h : ∀ z ∈ l, k < sortKey z) :
    l.filter (fun a => sortKey a == k) = [] := by
  induction l with
  | nil => rfl
  | cons y ys ih =>
    rw [List.filter_cons]
    have hy : (sortKey y == k) = false := by
      have := h y (List.mem_cons_self y ys)
      simp
      omega
    rw [hy]
    simp only [Bool.false_eq_true, if_false]
    exact ih (fun z hz => h z (List.mem_cons_of_mem y hz))

theorem filter_insertLine (x : BankItemLine) (l : List BankItemLine) (k : Nat)
    (h : List.Pairwise lineLE l) :
    (insertLine x l).filter (fun a => sortKey a == k)
      = if sortKey x == k
          then l.filter (fun a => sortKey a == k) ++ [x]
          else l.filter (fun a => sortKey a == k) := by
  induction l with
  | nil =>
    by_cases hx : (sortKey x == k) = true
    · simp [insertLine, List.filter_cons, hx]
    · rw [Bool.not_eq_true] at hx
      simp [insertLine, List.filter_cons, hx]
  | cons y ys ih =>
    rw [List.pairwise_cons] at h
    unfold insertLine
    split
    · rename_i hlt
      by_cases hx : (sortKey x == k) = true
      · have hk : sortKey x = k := beq_iff_eq.mp hx
        subst hk
        have hnil : (y :: ys).filter (fun a => sortKey a == sortKey x) = [] := by
          apply filter_key_nil
          intro z hz
          rcases List.mem_cons.mp hz with rfl | hz2
          · exact hlt
          · exact Nat.lt_of_lt_of_le hlt (h.1 z hz2)
        simp [List.filter_cons, hnil]
      · rw [Bool.not_eq_true] at hx
        simp [List.filter_cons, hx]
    · rename_i hnlt
      rw [List.filter_cons, List.filter_cons, ih h.2]
      by_cases hy : (sortKey y == k) = true
      · by_cases hx : (sortKey x == k) = true
        · simp [hy, hx]
        · rw [Bool.not_eq_true] at hx
          simp [hy, hx]
      · rw [Bool.not_eq_true] at hy
        by_cases hx : (sortKey x == k) = true
        · simp [hy, hx]
        · rw [Bool.not_eq_true] at hx
          simp [hy, hx]

theorem sortAux_pairwise (xs acc : List BankItemLine)
    (h : List.Pairwise lineLE acc) :
    List.Pairwise lineLE (xs.foldl (fun a x => insertLine x a) acc) := by
  induction xs generalizing acc with
  | nil => exact h
  | cons x xs ih => exact ih _ (pairwise_insertLine x acc h)

theorem sortStable_pairwise (xs : List BankItemLine) :
    List.Pairwise lineLE (sortStable xs) :=
  sortAux_pairwise xs [] List.Pairwise.nil

theorem sortAux_filter (xs acc : List BankItemLine) (k : Nat)
    (h : List.Pairwise lineLE acc) :
    (xs.foldl (fun a x => insertLine x a) acc).filter (fun a => sortKey a == k)
      = acc.filter (fun a => sortKey a == k) ++ xs.filter (fun a => sortKey a == k) := by
  induction xs generalizing acc with
  | nil => simp
  | cons x xs ih =>
    rw [List.foldl_cons, ih (insertLine x acc) (pairwise_insertLine x acc h),
        filter_insertLine x acc k h, List.filter_cons]
    by_cases hx : (sortKey x == k) = true
    · simp [hx]
    · rw [Bool.not_eq_true] at hx
      simp [hx]

theorem sortStable_filter (xs : List BankItemLine) (k : Nat) :
    (sortStable xs).filter (fun a => sortKey a == k)
      = xs.filter (fun a => sortKey a == k) := by
  have h := sortAux_filter xs [] k List.Pairwise.nil
  simpa [sortStable] using h

theorem sortAux_mem (a : BankItemLine) (xs acc : List BankItemLine) :
    a ∈ xs.foldl (fun l x => insertLine x l) acc ↔ a ∈ acc ∨ a ∈ xs := by
  induction xs generalizing acc with
  | nil => simp
  | cons x xs ih =>
    rw [List.foldl_cons, ih, mem_insertLine, List.mem_cons]
    tauto

theorem mem_sortStable (a : BankItemLine) (xs : List BankItemLine) :
    a ∈ sortStable xs ↔ a ∈ xs := by
  have h := sortAux_mem a xs []
  simpa [sortStable] using h

/-- The record-level invariant the value-date branch maintains: whenever both
dates are set, the value date is less than seven days after the entry date. -/
def pairOK (l : BankItemLine) : Prop :=
  ∀ e v, l.entry_time = some e → l.value_time = some v →
    toDays v < toDays e + 7

/-- Loop invariant of `parse_page`: every finalized record is complete and
satisfies `pairOK`, and the open record (when any) satisfies `pairOK`. -/
def StInv (st : PState) : Prop :=
  (∀ l ∈ st.items, l.is_complete = true ∧ pairOK l)
    ∧ (∀ r, st.record = some r → pairOK r)

theorem valueResolve_lt (d m : Nat) (entry s : Date)
    (h : valueResolve d m entry = Except.ok (some s)) :
    toDays s < toDays entry + 7 := by
  unfold valueResolve at h
  split at h
  · split at h
    · rename_i hc
      cases Option.some.inj (Except.ok.inj h)
      exact hc
    · split at h
      · split at h
        · rename_i hc
          cases Option.some.inj (Except.ok.inj h)
          exact hc
        · simp at h
      · simp at h
  · simp at h

theorem parsePeriod_fields (st : PState) (t : String) (st2 : PState)
    (h : parsePeriod st t = Except.ok st2) :
    st2.items = st.items ∧ st2.record = st.record := by
  unfold parsePeriod at h
  split at h
  · simp at h
  · cases Except.ok.inj h
    exact ⟨rfl, rfl⟩

theorem pairOK_newRecord (stamp : Date) : pairOK (newRecord stamp) := by
  intro e v _ hv
  simp [newRecord] at hv

theorem moneyBand_inv (st : PState) (t : String) (L : Nat) (st2 : PState)
    (hI : StInv st) (h : moneyBand st t L = Except.ok st2) : StInv st2 := by
  obtain ⟨hItems, hRec⟩ := hI
  unfold moneyBand at h
  split at h
  · cases Except.ok.inj h
    exact ⟨hItems, hRec⟩
  · rename_i r hr
    split at h
    · cases Except.ok.inj h
      exact ⟨hItems, hRec⟩
    · split at h
      · split at h
        · simp at h
        · cases Except.ok.inj h
          refine ⟨hItems, ?_⟩
          intro r2 hr2
          cases Option.some.inj hr2
          exact hRec r hr
      · split at h
        · split at h
          · simp at h
          · cases Except.ok.inj h
            refine ⟨hItems, ?_⟩
            intro r2 hr2
            cases Option.some.inj hr2
            exact hRec r hr
        · cases Except.ok.inj h
          refine ⟨hItems, ?_⟩
          intro r2 hr2
          cases Option.some.inj hr2
          exact hRec r hr

theorem dateBandAt_inv (st : PState) (t : String) (L : Nat) (st2 : PState)
    (hI : StInv st) (h : dateBandAt st t L = Except.ok st2) : StInv st2 := by
  obtain ⟨hItems, hRec⟩ := hI
  unfold dateBandAt at h
  split at h
  · cases Except.ok.inj h
    exact ⟨hItems, hRec⟩
  · rename_i d m hmatch
    split at h
    · split at h
      · rename_i trs tre htrs
        split at h
        · simp at h
        · rename_i stamp hstamp
          split at h
          · cases Except.ok.inj h
            refine ⟨hItems, ?_⟩
            intro r2 hr2
            cases Option.some.inj hr2
            exact pairOK_newRecord stamp
          · rename_i r hr
            split at h
            · rename_i hcomp
              cases Except.ok.inj h
              constructor
              · intro l hl
                rcases List.mem_append.mp hl with h1 | h1
                · exact hItems l h1
                · rw [List.mem_singleton] at h1
                  subst h1
                  exact ⟨hcomp, hRec _ hr⟩
              · intro r2 hr2
                cases Option.some.inj hr2
                exact pairOK_newRecord stamp
            · simp at h
      · simp at h
    · split at h
      · simp at h
      · rename_i r hr
        split at h
        · simp at h
        · rename_i entry hentry
          split at h
          · simp at h
          · simp at h
          · rename_i stamp hvr
            cases Except.ok.inj h
            refine ⟨hItems, ?_⟩
            intro r2 hr2
            cases Option.some.inj hr2
            intro e v he hv
            have he2 : r.entry_time = some e := he
            rw [hentry] at he2
            cases Option.some.inj he2
            cases Option.some.inj hv
            exact valueResolve_lt d m entry stamp hvr

theorem processBody_inv (st : PState) (t ps : String) (st2 : PState)
    (hI : StInv st) (h : processBody st t ps = Except.ok st2) : StInv st2 := by
  unfold processBody at h
  split at h
  · cases Except.ok.inj h
    exact hI
  · split at h
    · obtain ⟨h1, h2⟩ := parsePeriod_fields st t st2 h
      refine ⟨?_, ?_⟩
      · rw [h1]; exact hI.1
      · rw [h2]; exact hI.2
    · split at h
      · cases Except.ok.inj h
        exact hI
      · split at h
        · simp at h
        · rename_i L hL
          split at h
          · exact dateBandAt_inv (stWithTre st) t L st2 ⟨hI.1, hI.2⟩ h
          · exact moneyBand_inv st t L st2 hI h

theorem stepFrag_inv (st : PState) (f : Frag) (st2 : PState)
    (hI : StInv st) (h : stepFrag st f = Except.ok st2) : StInv st2 := by
  unfold stepFrag at h
  split at h
  · split at h
    · exact processBody_inv st f.text _ st2 hI h
    · cases Except.ok.inj h
      exact hI
  · cases Except.ok.inj h
    exact hI

theorem runFrags_inv (fs : List Frag) (st st2 : PState)
    (hI : StInv st) (h : runFrags st fs = Except.ok st2) : StInv st2 := by
  induction fs generalizing st with
  | nil =>
    unfold runFrags at h
    cases Except.ok.inj h
    exact hI
  | cons f fs ih =>
    unfold runFrags at h
    split at h
    · simp at h
    · rename_i st1 hstep
      exact ih st1 (stepFrag_inv st f st1 hI hstep) h

theorem initState_inv : StInv initState := by
  constructor
  · intro l hl
    simp [initState] at hl
  · intro r hr
    simp [initState] at hr

/-- Any record list `parse_page` returns consists of complete records that
also satisfy the value-date bound. -/
theorem parse_page_good (fs : List Frag) (out : List BankItemLine)
    (h : parse_page fs = Except.ok out) :
    ∀ l ∈ out, l.is_complete = true ∧ pairOK l := by
  unfold parse_page at h
  split at h
  · simp at h
  · rename_i st hrun
    have hI := runFrags_inv fs initState st initState_inv hrun
    unfold finishPage at h
    split at h
    · cases Except.ok.inj h
      intro l hl
      rw [mem_sortStable] at hl
      exact hI.1 l hl
    · rename_i r hrec
      split at h
      · rename_i hcomp
        cases Except.ok.inj h
        intro l hl
        rw [mem_sortStable] at hl
        rcases List.mem_append.mp hl with h1 | h1
        · exact hI.1 l h1
        · rw [List.mem_singleton] at h1
          subst h1
          exact ⟨hcomp, hI.2 _ hrec⟩
      · split at h
        · simp at h
        · cases Except.ok.inj h
          intro l hl
          rw [mem_sortStable] at hl
          exact hI.1 l hl

theorem period_not_terminator (st : PState) (t : String)
    (h : List.isPrefixOf periodMark t.data = true) :
    terminatorMatch st t = false := by
  unfold terminatorMatch
  cases htre : st.time_range_end with
  | none => rfl
  | some tre =>
    cases ht : t.data with
    | nil =>
      rw [ht] at h
      exact absurd h (by decide)
    | cons c rest =>
      rw [ht] at h
      have h2 : (('P' == c)
          && List.isPrefixOf (("eriod this statement relates to").data) rest) = true := h
      have hc : 'P' = c := beq_iff_eq.mp ((Bool.and_eq_true _ _).mp h2).1
      show List.isPrefixOf ((("Balance as at ").data) ++ strftime_dmY tre) (c :: rest) = false
      rw [← hc]
      show (('B' == 'P')
          && List.isPrefixOf ((("alance as at ").data) ++ strftime_dmY tre) rest) = false
      have hb : ('B' == 'P') = false := by decide
      rw [hb]
      simp

/-- C1: for every fragment sequence that `parse_page` processes without a
fatal error, every record in the final output list is complete — entry date,
value date, credited amount and balance amount all set and the description
non-empty (`is_complete`); an incomplete record is never emitted. -/
theorem c1_output_complete (fs : List Frag) (out : List BankItemLine)
    (h : parse_page fs = Except.ok out) :
    ∀ l ∈ out, l.is_complete = true :=
  fun l hl => (parse_page_good fs out h l hl).1

/-- Witness for C1 at the Scenario 1 stream. -/
theorem c1_output_complete_witness :
    parse_page scenario1 = Except.ok [scenario1Record]
      ∧ scenario1Record.is_complete = true :=
  ⟨by decide, c1_output_complete scenario1 [scenario1Record] (by decide)
    scenario1Record (by decide)⟩

/-- C2 (counterexample): on the Scenario 1 fragment stream the source does
not produce creditedAmount 100.00 and balanceAmount 1500.00. The record's
credited field is the decimal with coefficient 10000 and no fractional digits
(numeric value 10000, not 100.00 = Decimal.mk 10000 2) and its balance field
is Decimal.mk 150000 5 (numeric value 1.5, not 1500.00 = Decimal.mk 150000 2). -/
theorem c2_scenario1_cex :
    parse_page scenario1 = Except.ok [scenario1Record]
      ∧ scenario1Record.credited = some (Decimal.mk 10000 0)
      ∧ Decimal.eqv (Decimal.mk 10000 0) (Decimal.mk 10000 2) = false
      ∧ scenario1Record.balance = some (Decimal.mk 150000 5)
      ∧ Decimal.eqv (Decimal.mk 150000 5) (Decimal.mk 150000 2) = false := by
  decide

/-- C2 (amended): the Scenario 1 stream yields exactly one record with
entryDate 2016-10-15, valueDate 2016-10-16, description "Payment received",
creditedAmount 10000 (the comma of "100,00+" is stripped, leaving no decimal
separator) and balanceAmount 1.5 (the thousands period of "1.500,00+" is
kept as the decimal point). -/
theorem c2_scenario1_amended :
    parse_page scenario1 = Except.ok [scenario1Record]
      ∧ scenario1Record.entry_time = some (Date.mk 2016 10 15)
      ∧ scenario1Record.value_time = some (Date.mk 2016 10 16)
      ∧ String.intercalate (" ") (scenario1Record.description) = ("Payment received")
      ∧ scenario1Record.credited = some (Decimal.mk 10000 0)
      ∧ scenario1Record.balance = some (Decimal.mk 150000 5)
      ∧ Decimal.eqv (Decimal.mk 150000 5) (Decimal.mk 15 1) = true := by
  decide

/-- C3 (counterexample): the value-date strategy accepts a candidate whose
absolute distance from the entry date is far more than 7 days, because the
source compares the signed difference only: with entry date 2016-10-15 the
value text "01.01" resolves to 2016-01-01 (288 days earlier) and the record
is finalized with that value date. -/
theorem c3_value_bound_cex :
    parse_page scenario3 = Except.ok [scenario3Record]
      ∧ scenario3Record.entry_time = some (Date.mk 2016 10 15)
      ∧ scenario3Record.value_time = some (Date.mk 2016 1 1)
      ∧ toDays (Date.mk 2016 1 1) + 7 ≤ toDays (Date.mk 2016 10 15) := by
  decide

/-- C3 (amended): a value-date candidate is accepted exactly when the signed
difference candidate − entryDate is strictly less than 7 days, so every
finalized record's valueDate is strictly less than 7 days after its
entryDate (it may lie arbitrarily far before it). -/
theorem c3_value_upper_bound (fs : List Frag) (out : List BankItemLine)
    (h : parse_page fs = Except.ok out) :
    ∀ l ∈ out, ∀ e v, l.entry_time = some e → l.value_time = some v →
      toDays v < toDays e + 7 :=
  fun l hl => (parse_page_good fs out h l hl).2

/-- Witness for C3 (amended) at the Scenario 1 stream. -/
theorem c3_value_upper_bound_witness :
    toDays (Date.mk 2016 10 16) < toDays (Date.mk 2016 10 15) + 7 :=
  c3_value_upper_bound scenario1 [scenario1Record] (by decide)
    scenario1Record (by decide) (Date.mk 2016 10 15) (Date.mk 2016 10 16)
    (by decide) (by decide)

/-- C4 (counterexample): the entry-date-band fragment "48.00" is not ignored:
with the Scenario period in force, `parse_page` raises the fatal
could-not-be-assigned error instead of returning the empty page. -/
theorem c4_invalid_entry_cex :
    parse_page c4frags = Except.error PError.dateUnassignable
      ∧ parse_page c4frags ≠ Except.ok [] := by
  decide

/-- C4 (amended): a DD.MM text that is syntactically invalid for the first
candidate year makes the `except ValueError: break` abandon the whole
candidate loop — the second year is never tried, even when it would be valid
— so no valid stamp exists and the fatal unassignable-timestamp error is
raised; in particular "48.00" in the entry-date band is an error, not
ignored. -/
theorem c4_invalid_first_year (d m : Nat) (trs tre : Date)
    (h : candDateValid d m trs.year = false) :
    entryResolve d m trs tre = none := by
  unfold entryResolve
  rw [h]
  simp

/-- Witness for C4 (amended): 29.02 is invalid for 2015, so the resolver
returns no stamp although 29.02.2016 would have been a valid date. -/
theorem c4_invalid_first_year_witness :
    candDateValid 29 2 2015 = false
      ∧ candDateValid 29 2 2016 = true
      ∧ entryResolve 29 2 (Date.mk 2015 9 1) (Date.mk 2016 3 1) = none :=
  ⟨by decide, by decide,
    c4_invalid_first_year 29 2 (Date.mk 2015 9 1) (Date.mk 2016 3 1) (by decide)⟩

/-- C5 (code bug): a value-date-band fragment matching DD.MM while no record
is open is not silently ignored: the source evaluates
`record.entry_time.year` before its `record is None` guard, so the page
crashes with an AttributeError. -/
theorem c5_value_band_crash :
    parse_page c5frags = Except.error PError.attributeError := by
  decide

/-- C6 (counterexample): the fragments after the terminator marker are not
all ignored: appending a second period marker and a second complete record
to a closed page changes the output from one record to two, the second built
entirely from post-terminator fragments. -/
theorem c6_not_terminal_cex :
    parse_page c6front = Except.ok [c6recA]
      ∧ parse_page (c6front ++ c6post) = Except.ok [c6recA, c6recB] := by
  decide

/-- C6 (amended): the terminator only clears the recording flag. While the
flag is off, a body fragment that matches neither the terminator nor the
period marker is ignored with no state change; but the state is not
terminal — a later period-marker fragment re-enters recording, so
well-formed fragments after the terminator can produce further records. -/
theorem c6_after_terminator (st : PState) (t ps : String)
    (h1 : st.is_recording = false)
    (h2 : terminatorMatch st t = false)
    (h3 : List.isPrefixOf periodMark t.data = false) :
    processBody st t ps = Except.ok st := by
  unfold processBody
  rw [h2, h1, h3]
  simp

/-- Witness for C6 (amended) on a closed-page state. -/
theorem c6_after_terminator_witness :
    processBody
        (PState.mk [] none false (some (Date.mk 2016 9 1)) (some (Date.mk 2016 11 30)))
        ("Some footer text") ("top:1pt")
      = Except.ok
        (PState.mk [] none false (some (Date.mk 2016 9 1)) (some (Date.mk 2016 11 30))) :=
  c6_after_terminator _ _ _ rfl (by decide) (by decide)

/-- C7: the document reconstructor returns the per-page concatenation
sorted by entry date only, stably: the output is pairwise nondecreasing in
the entry-date key, and for every key value the subsequence of records with
that key is exactly the one of the original concatenation, in the same
order. -/
theorem c7_doc_sorted_stable (pages : List (List Frag))
    (out cat : List BankItemLine) (k : Nat)
    (h1 : parse_doc pages = Except.ok out)
    (h2 : pagesConcat pages = Except.ok cat) :
    List.Pairwise lineLE out
      ∧ out.filter (fun l => sortKey l == k) = cat.filter (fun l => sortKey l == k) := by
  unfold parse_doc at h1
  rw [h2] at h1
  have h3 : sortStable cat = out := Except.ok.inj h1
  subst h3
  exact ⟨sortStable_pairwise cat, sortStable_filter cat k⟩

/-- Witness for C7: a two-page document whose pages produce records sharing
an entry date. -/
theorem c7_doc_sorted_stable_witness :
    List.Pairwise lineLE [c7recX, c7recY]
      ∧ List.filter (fun l => sortKey l == toDays (Date.mk 2016 10 15)) [c7recX, c7recY]
          = List.filter (fun l => sortKey l == toDays (Date.mk 2016 10 15)) [c7recX, c7recY] :=
  c7_doc_sorted_stable [c7page1, c7page2] [c7recX, c7recY] [c7recX, c7recY]
    (toDays (Date.mk 2016 10 15)) (by decide) (by decide)

/-- C8: at the end of a page's fragment stream, with loop state `st`:
no open record — finish normally with the sorted items; open and complete —
finalize it into the output; open, incomplete, entry date set — fatal
incomplete-page-end error; open, incomplete, no entry date — discard
silently. -/
theorem c8_end_of_stream (fs : List Frag) (st : PState)
    (h : runFrags initState fs = Except.ok st) :
    parse_page fs =
      (match st.record with
       | none => Except.ok (sortStable st.items)
       | some r =>
         if r.is_complete then Except.ok (sortStable (st.items ++ [r]))
         else if r.entry_time.isSome then Except.error PError.incompletePageEnd
         else Except.ok (sortStable st.items)) := by
  unfold parse_page
  rw [h]
  rfl

/-- Witness for C8: a page ending on an open record that has only an entry
date raises the fatal incomplete-page error. -/
theorem c8_end_of_stream_witness :
    parse_page c8frags = Except.error PError.incompletePageEnd :=
  c8_end_of_stream c8frags c8state (by decide)

/-- C9 (counterexample): a body-text fragment whose paragraph style has no
left:<integer>pt offset does not always abort processing: before any period
marker it is skipped while seeking, and the page succeeds. -/
theorem c9_missing_offset_cex :
    isBodyFrag c9frag = true
      ∧ findLeftPt (("top:10pt").data) = none
      ∧ parse_page [c9frag] = Except.ok [] := by
  decide

/-- C9 (amended): only while recording — and when the fragment matches
neither the terminator nor, the flag being set, the period marker — does a
body-text fragment whose paragraph style lacks a left:<integer>pt offset
make processing fail with the fatal missing-layout-offset error. -/
theorem c9_missing_offset (st : PState) (t ps : String)
    (h1 : st.is_recording = true)
    (h2 : terminatorMatch st t = false)
    (h3 : findLeftPt ps.data = none) :
    processBody st t ps = Except.error PError.missingLayoutOffset := by
  unfold processBody
  rw [h2, h1, h3]
  simp

/-- Witness for C9 (amended) on a recording state. -/
theorem c9_missing_offset_witness :
    processBody
        (PState.mk [] none true (some (Date.mk 2016 9 1)) (some (Date.mk 2016 11 30)))
        ("stray text") ("top:10pt")
      = Except.error PError.missingLayoutOffset :=
  c9_missing_offset _ _ _ rfl (by decide) (by decide)

/-- C10: while recording, a fragment whose text begins with
"Period this statement relates to" is not treated as a period marker: it
falls through to band classification, and when its offset lies in the
description band (not 57, not 98, at most 390) and the open record's value
date is set, the text is appended verbatim to the record's description. -/
theorem c10_period_text_appended (st : PState) (r : BankItemLine)
    (t ps : String) (L : Nat)
    (h1 : st.is_recording = true)
    (h2 : st.record = some r)
    (h3 : r.value_time.isNone = false)
    (h4 : findLeftPt ps.data = some L)
    (h5 : L ≠ 57) (h6 : L ≠ 98) (h7 : L ≤ 390)
    (h8 : List.isPrefixOf periodMark t.data = true) :
    processBody st t ps
      = Except.ok { st with record := some { r with description := r.description ++ [t] } } := by
  have hterm := period_not_terminator st t h8
  have e5 : (L == 57) = false := by simp [h5]
  have e6 : (L == 98) = false := by simp [h6]
  have e7 : ¬ 490 < L := by omega
  have e8 : ¬ 390 < L := by omega
  unfold processBody moneyBand
  rw [hterm, h1, h4, h2]
  simp [e5, e6, h3, e7, e8]

/-- Witness for C10: a period-marker text arriving at offset 150 while a
record with a value date is open is appended to the description. -/
theorem c10_period_text_appended_witness :
    processBody
        (PState.mk []
          (some (BankItemLine.mk (some (Date.mk 2016 10 15)) (some (Date.mk 2016 10 16))
            [("Payment")] none none))
          true (some (Date.mk 2016 9 1)) (some (Date.mk 2016 11 30)))
        ("Period this statement relates to: 01.09.2016 to 30.11.2016")
        ("top:100pt;left:150pt")
      = Except.ok
        (PState.mk []
          (some (BankItemLine.mk (some (Date.mk 2016 10 15)) (some (Date.mk 2016 10 16))
            [("Payment"), ("Period this statement relates to: 01.09.2016 to 30.11.2016")]
            none none))
          true (some (Date.mk 2016 9 1)) (some (Date.mk 2016 11 30))) :=
  c10_period_text_appended
    (PState.mk []
      (some (BankItemLine.mk (some (Date.mk 2016 10 15)) (some (Date.mk 2016 10 16))
        [("Payment")] none none))
      true (some (Date.mk 2016 9 1)) (some (Date.mk 2016 11 30)))
    (BankItemLine.mk (some (Date.mk 2016 10 15)) (some (Date.mk 2016 10 16))
      [("Payment")] none none)
    ("Period this statement relates to: 01.09.2016 to 30.11.2016")
    ("top:100pt;left:150pt") 150 rfl rfl rfl (by decide) (by decide)
    (by decide) (by decide) (by decide)
